import Mathlib

/-!
Shallow embedding of `src/scripts/purge-tables.py` (a table-purge
orchestrator driving `mysql`, `mysqldump` and `pt-archiver`), together
with theorems settling the specification claims about it.

Modelling conventions:
* YAML/Python scalar values are `Val` (string, integer, or `None`);
  Python truthiness is `Val.truthy`, `%s`-formatting is `Val.pyStr`.
* A YAML mapping is an association list `Dict`; `dict.update` semantics
  are modelled by `dictMerge` (override entries shadow template entries
  under `dget` lookup).
* External process execution is an oracle `exec : Cmd → Int` giving the
  exit status of each spawned command; the run model records every
  command actually spawned, so "no external command runs" is the absence
  of recorded commands.
* The config document and the lookup-query connection are likewise
  oracles (`CfgSource`, `QueryResult`), since file IO and MySQL are
  external collaborators.
-/

namespace PurgeTables

/-- A Python/YAML scalar value: a string, an integer, or `None`. -/
inductive Val
| vStr (s : String)
| vInt (n : Int)
| vNone
deriving DecidableEq, Repr

/-- Python `str()` conversion as applied by `%s` formatting and
`str.format`: `None` renders as `"None"`.  (String concatenation with
`+` in the source assumes `str` operands; we totalise it with the same
conversion.) -/
def Val.pyStr : Val → String
| .vStr s => s
| .vInt n => toString n
| .vNone => "None"

/-- Python truthiness of a scalar: `None`, `""` and `0` are falsy. -/
def Val.truthy : Val → Bool
| .vStr s => s ≠ ""
| .vInt n => n ≠ 0
| .vNone => false

/-- Python `==` between a scalar and an integer literal (as used by
`conf["swp_drp"] == 0` and the `in (0, 1, 2)` membership test):
only an equal integer compares equal. -/
def Val.pyEqInt : Val → Int → Bool
| .vInt m, n => m = n
| _, _ => false

/-- A YAML mapping / Python dict, as an association list.  Lookup takes
the first matching key. -/
abbrev Dict := List (String × Val)

/-- Dict lookup: `d[k]` when the key is present. -/
def dget (d : Dict) (k : String) : Option Val :=
  List.lookup k d

/-- Python `d.get(k, default)`: the stored value when the key is present
(even when that stored value is `None`), else the default. -/
def pyGet (d : Dict) (k : String) (dfl : Val) : Val :=
  match dget d k with
  | some v => v
  | none => dfl

/-- The merge `purge_data = default_purge.copy(); purge_data.update(purge)`
from `main`: override entries shadow the template under `dget`. -/
def dictMerge (tmpl ov : Dict) : Dict :=
  ov ++ tmpl

/-- Command-line options of the script (`--dry-run`, `--stop-on-error`,
`--alias`). -/
structure Options where
  dry_run : Bool
  stop_on_error : Bool
  alias? : Option String
deriving DecidableEq, Repr

/-- The resolved per-alias configuration `conf` built in `main`
(lines 101-122 of the source). -/
structure Conf where
  prg_alias : Val
  src_host : Val
  src_port : Val
  src_db : Val
  src_tbl : Val
  src_query : Val
  dst_host : Val
  dst_port : Val
  dst_db : Val
  dst_tbl : Val
  dst_file : Val
  prg_where : Val
  prg_limit : Val
  prg_sleep : Val
  prg_purge : Val
  prg_extra_args : Val
  prg_disable_binlog : Val
  prg_use_index : Val
  swp_drp : Val
  swp_table_suffix : Val
deriving DecidableEq, Repr

/-- Construction of `conf` from the merged purge record (source lines
101-122).  `today` is `time.strftime("%Y%m%d")`. -/
def mkConf (purge : Dict) (today : String) : Conf where
  prg_alias := pyGet purge "ALIAS" .vNone
  src_host := pyGet purge "SOURCE_HOST" (.vStr "localhost")
  src_port := pyGet purge "SOURCE_PORT" (.vInt 3306)
  src_db := pyGet purge "SOURCE_DB" .vNone
  src_tbl := pyGet purge "SOURCE_TABLE" .vNone
  src_query := pyGet purge "SOURCE_QUERY" .vNone
  dst_host := pyGet purge "DEST_HOST" .vNone
  dst_port := pyGet purge "DEST_PORT" .vNone
  dst_db := pyGet purge "DEST_DB" .vNone
  dst_tbl := pyGet purge "DEST_TABLE" .vNone
  dst_file := pyGet purge "DEST_FILE" .vNone
  prg_where := pyGet purge "WHERE" .vNone
  prg_limit := pyGet purge "LIMIT" (.vInt 1000)
  prg_sleep := pyGet purge "SLEEP" (.vInt 1)
  prg_purge := pyGet purge "DELETE_DATA" (.vInt 0)
  prg_extra_args := pyGet purge "EXTRA_ARGS" .vNone
  prg_disable_binlog := pyGet purge "DISABLE_BINLOG" (.vInt 0)
  prg_use_index := pyGet purge "USE_INDEX" .vNone
  swp_drp := pyGet purge "SWAP_DROP" (.vInt 0)
  swp_table_suffix := pyGet purge "SWP_TABLE_SUFFIX" (.vStr today)

/-- Destination defaulting (source lines 124-126): for each of host,
port, db, tbl, a falsy destination value is replaced by the
corresponding source value. -/
def defaultDst (c : Conf) : Conf :=
  { c with
    dst_host := if c.dst_host.truthy then c.dst_host else c.src_host
    dst_port := if c.dst_port.truthy then c.dst_port else c.src_port
    dst_db := if c.dst_db.truthy then c.dst_db else c.src_db
    dst_tbl := if c.dst_tbl.truthy then c.dst_tbl else c.src_tbl }

/-- An external command: a single process, or a producer piped into a
consumer (the `mysqldump | mysql` structure-replication pipe). -/
inductive Cmd
| simple (args : List String)
| pipe (producer consumer : List String)
deriving DecidableEq, Repr

/-- Path of the archiver binary (`PT_ARCHIVER_BIN`). -/
def PT_ARCHIVER_BIN : String := "/usr/bin/pt-archiver"

/-- The `drop_table` runner (source lines 193-207): builds the `mysql -e`
DROP command; in dry-run mode prints it and returns 0 spawning nothing,
otherwise spawns it and returns its exit status.  Result: exit status
and the list of commands actually spawned. -/
def drop_table (src_db src_tbl : String) (c : Conf) (opts : Options)
    (ex : Cmd → Int) : Int × List Cmd :=
  let sql_cmd := "DROP TABLE " ++ src_db ++ "." ++ src_tbl ++ ";"
  let drp_cmd := ["mysql", src_db, "-h" ++ c.src_host.pyStr,
                  "-P" ++ c.src_port.pyStr, "-e" ++ sql_cmd]
  if opts.dry_run then (0, [])
  else (ex (Cmd.simple drp_cmd), [Cmd.simple drp_cmd])

/-- The `swap_create_table` runner (source lines 209-248): a `mysql -e`
CREATE+RENAME on the source, then — only if that returned 0 — a
`mysqldump | mysql` structure-replication pipe onto the destination.
Dry-run prints instead of spawning and leaves the status at 0. -/
def swap_create_table (src_db src_tbl src_tbl_swapped : String) (c : Conf)
    (opts : Options) (ex : Cmd → Int) : Int × List Cmd :=
  let sql_cmd :=
    "CREATE TABLE " ++ src_db ++ "." ++ src_tbl ++ "_tmp LIKE " ++
      src_db ++ "." ++ src_tbl ++ ";" ++
    "RENAME TABLE " ++ src_db ++ "." ++ src_tbl ++ " TO " ++
      src_db ++ "." ++ src_tbl_swapped ++ ", " ++
      src_db ++ "." ++ src_tbl ++ "_tmp TO " ++ src_db ++ "." ++ src_tbl ++ ";"
  let drp_swp_cmd := ["mysql", src_db, "-h" ++ c.src_host.pyStr,
                      "-P" ++ c.src_port.pyStr, "-e" ++ sql_cmd]
  let step1 : Int × List Cmd :=
    if opts.dry_run then (0, [])
    else (ex (Cmd.simple drp_swp_cmd), [Cmd.simple drp_swp_cmd])
  if step1.1 = 0 then
    let dump_cmd := ["mysqldump", "-h" ++ c.src_host.pyStr,
                     "-P" ++ c.src_port.pyStr, "--skip-opt", "--no-data",
                     "--no-create-db", src_db, src_tbl_swapped]
    let create_cmd := ["mysql", "-h" ++ c.dst_host.pyStr,
                       "-P" ++ c.dst_port.pyStr, c.dst_db.pyStr]
    if opts.dry_run then step1
    else (ex (Cmd.pipe dump_cmd create_cmd),
          step1.2 ++ [Cmd.pipe dump_cmd create_cmd])
  else step1

/-- The `swap_drop_runner` (source lines 250-269): one `mysql -e`
invocation holding CREATE, RENAME and DROP as a unit. -/
def swap_drop_runner (src_db src_tbl : String) (c : Conf) (opts : Options)
    (ex : Cmd → Int) : Int × List Cmd :=
  let sql_cmd :=
    "CREATE TABLE " ++ src_tbl ++ "_new like " ++ src_tbl ++ ";" ++
    " RENAME TABLE " ++ src_tbl ++ " TO " ++ src_tbl ++ "_old, " ++
      src_tbl ++ "_new To " ++ src_tbl ++ ";" ++
    " DROP TABLE " ++ src_tbl ++ "_old"
  let drp_swp_cmd := ["mysql", src_db, "-h" ++ c.src_host.pyStr,
                      "-P" ++ c.src_port.pyStr, "-e" ++ sql_cmd]
  if opts.dry_run then (0, [])
  else (ex (Cmd.simple drp_swp_cmd), [Cmd.simple drp_swp_cmd])

/-- The `--source=` DSN argument of `pt_archive_runner` (source lines
274-284): with an index hint when `prg_use_index` is truthy. -/
def source_args (src_db src_tbl : String) (c : Conf) : String :=
  if c.prg_use_index.truthy then
    "--source=h=" ++ c.src_host.pyStr ++ ",P=" ++ c.src_port.pyStr ++
      ",D=" ++ src_db ++ ",t=" ++ src_tbl ++
      ",b=" ++ c.prg_disable_binlog.pyStr ++ ",i=" ++ c.prg_use_index.pyStr
  else
    "--source=h=" ++ c.src_host.pyStr ++ ",P=" ++ c.src_port.pyStr ++
      ",D=" ++ src_db ++ ",t=" ++ src_tbl ++
      ",b=" ++ c.prg_disable_binlog.pyStr

/-- The fixed leading arguments of the archiver command (source lines
286-297), before the output-mode block. -/
def ptCommonArgs (src_db src_tbl : String) (c : Conf) : List String :=
  [PT_ARCHIVER_BIN, source_args src_db src_tbl c,
   "--where=" ++ c.prg_where.pyStr,
   "--limit=" ++ c.prg_limit.pyStr,
   "--progress=100000", "--why-quit", "--header",
   "--sleep=" ++ c.prg_sleep.pyStr,
   "--statistics", "--skip-foreign-key-checks", "--commit-each",
   "--no-check-charset"]

/-- Delete-after-archive output mode (`DELETE_DATA`, source line 303). -/
def ptDeleteMode : List String :=
  ["--bulk-delete", "--purge"]

/-- File-dump output mode (`DEST_FILE`, source line 305). -/
def ptFileMode (c : Conf) : List String :=
  ["--buffer", "--bulk-delete", "--file=" ++ c.dst_file.pyStr]

/-- Insert-into-destination output mode with the resolved destination
DSN (source lines 307-314). -/
def ptDestMode (c : Conf) : List String :=
  ["--bulk-insert",
   "--dest=h=" ++ c.dst_host.pyStr ++ ",P=" ++ c.dst_port.pyStr ++
     ",D=" ++ c.dst_db.pyStr ++ ",t=" ++ c.dst_tbl.pyStr ++
     ",b=" ++ c.prg_disable_binlog.pyStr ++ ",L=yes"]

/-- The output-mode block chosen by the `if / elif / else` chain of
source lines 302-314. -/
def ptModeArgs (c : Conf) : List String :=
  if c.prg_purge.truthy then ptDeleteMode
  else if c.dst_file.truthy then ptFileMode c
  else ptDestMode c

/-- The extra arguments appended verbatim (source lines 319-320):
`conf["prg_extra_args"].split(" ")` when truthy. -/
def ptExtraArgs (c : Conf) : List String :=
  if c.prg_extra_args.truthy then (c.prg_extra_args.pyStr).splitOn " "
  else []

/-- The full archiver command line assembled by `pt_archive_runner`
(source lines 271-322): fixed arguments, then the output-mode block,
then `--dry-run` when simulating, then the extra arguments. -/
def pt_archiver_cmd (src_db src_tbl : String) (c : Conf)
    (opts : Options) : List String :=
  ptCommonArgs src_db src_tbl c ++ ptModeArgs c ++
    (if opts.dry_run then ["--dry-run"] else []) ++ ptExtraArgs c

/-- The `pt_archive_runner` step (source lines 271-338): the archiver
process is spawned in both modes (dry-run only redirects its output) and
its exit status is returned. -/
def pt_archive_runner (src_db src_tbl : String) (c : Conf) (opts : Options)
    (ex : Cmd → Int) : Int × List Cmd :=
  let cmd := Cmd.simple (pt_archiver_cmd src_db src_tbl c opts)
  (ex cmd, [cmd])

/-- A purge target: one (database, table) pair, as the dicts produced by
`get_tables_from_query` / the static branch of `main`.  (The source
stores the raw values; they are rendered by `%`/`.format` when commands
are built, so we store the rendered strings.) -/
structure Table where
  database : String
  table : String
deriving DecidableEq, Repr

/-- Outcome of the target-lookup connection and query in
`get_tables_from_query`: either an `OperationalError`/`ProgrammingError`
on connect/execute/fetch, or the fetched rows. -/
inductive QueryResult
| connError
| rows (rs : List (List String))
deriving DecidableEq, Repr

/-- The row loop of `get_tables_from_query` (source lines 355-360):
each row contributes `(row[0], row[1])`; the first row with fewer than
two columns raises `IndexError`, which is caught, keeping the targets
already collected. -/
def collectTables : List (List String) → List Table
| [] => []
| r :: rest =>
  match r with
  | d :: t :: _ => { database := d, table := t } :: collectTables rest
  | _ => []

/-- The `get_tables_from_query` function (source lines 340-361): on
connection/query failure it returns the empty list; otherwise it
collects rows until the first malformed one. -/
def get_tables_from_query (q : QueryResult) : List Table :=
  match q with
  | .connError => []
  | .rows rs => collectTables rs

/-- Kind of one dispatcher step, for the run trace. -/
inductive StepKind
| archive
| swapDrop
| swap
| drop
deriving DecidableEq, Repr

/-- One observable event of a run. -/
inductive Event
| step (als : String) (db tbl : String) (kind : StepKind) (ret : Int)
    (spawned : List Cmd)
| purgeFailed (als : String)
| validationError (als : String)
| successLine (als : String)
| finishLine (als : String)
| configReadError
| unhandledError
deriving DecidableEq, Repr

/-- Whether an event records a dispatcher step (and hence the building
and possible spawning of external commands). -/
def Event.isStep : Event → Bool
| .step _ _ _ _ _ _ => true
| _ => false

/-- Whether an event is the error log of a failed target. -/
def Event.isPurgeFailed : Event → Bool
| .purgeFailed _ => true
| _ => false

/-- Whether an event is a validation-failure log. -/
def Event.isValidationError : Event → Bool
| .validationError _ => true
| _ => false

/-- The suffixed table name `src_tbl + "_" + conf["swp_table_suffix"]`
built by the SWAP_ARCHIVE_DROP branch (source line 163). -/
def swappedName (t : Table) (c : Conf) : String :=
  t.table ++ "_" ++ c.swp_table_suffix.pyStr

/-- The configuration after the mid-run mutation
`conf["dst_tbl"] = src_tbl_swapped` (source line 168). -/
def confSwapped (t : Table) (c : Conf) : Conf :=
  { c with dst_tbl := Val.vStr (swappedName t c) }

/-- The strategy dispatch for one target (source lines 156-172).
Returns the target's result status, the configuration after the run
(SWAP_ARCHIVE_DROP rewrites `dst_tbl` to the suffixed name before the
archive step, a mutation that persists), and the trace of steps run.
The final `else` is unreachable: validation has already ensured
`swp_drp ∈ {0, 1, 2}`. -/
def runOneTarget (als : String) (t : Table) (c : Conf) (opts : Options)
    (ex : Cmd → Int) : Int × Conf × List Event :=
  if c.swp_drp.pyEqInt 0 then
    let r := pt_archive_runner t.database t.table c opts ex
    (r.1, c, [.step als t.database t.table .archive r.1 r.2])
  else if c.swp_drp.pyEqInt 1 then
    let r := swap_drop_runner t.database t.table c opts ex
    (r.1, c, [.step als t.database t.table .swapDrop r.1 r.2])
  else if c.swp_drp.pyEqInt 2 then
    let src_tbl_swapped := swappedName t c
    let r1 := swap_create_table t.database t.table src_tbl_swapped c opts ex
    let e1 := Event.step als t.database t.table .swap r1.1 r1.2
    if r1.1 = 0 then
      let c2 := confSwapped t c
      let r2 := pt_archive_runner t.database src_tbl_swapped c2 opts ex
      let e2 := Event.step als t.database src_tbl_swapped .archive r2.1 r2.2
      if r2.1 = 0 then
        let r3 := drop_table t.database src_tbl_swapped c2 opts ex
        (r3.1, c2,
         [e1, e2, Event.step als t.database src_tbl_swapped .drop r3.1 r3.2])
      else (r2.1, c2, [e1, e2])
    else (r1.1, c, [e1])
  else (0, c, [])

/-- Result of the per-job target loop: trace, the `error_on_alias`
accumulator, the configuration after the loop, and whether
`sys.exit(1)` fired (stop-on-error on a failing target). -/
structure LoopResult where
  events : List Event
  errs : List String
  conf : Conf
  exited : Bool
deriving DecidableEq, Repr

/-- The per-job target loop (source lines 152-182): each target is
dispatched; a non-zero result is logged, appends the alias to
`error_on_alias`, and — with stop-on-error — terminates the process. -/
def targetLoop (als : String) (tables : List Table) (c : Conf)
    (opts : Options) (ex : Cmd → Int) : LoopResult :=
  match tables with
  | [] => ⟨[], [], c, false⟩
  | t :: rest =>
    let r := runOneTarget als t c opts ex
    if r.1 ≠ 0 then
      let evs := r.2.2 ++ [Event.purgeFailed als]
      if opts.stop_on_error then ⟨evs, [als], r.2.1, true⟩
      else
        let lr2 := targetLoop als rest r.2.1 opts ex
        ⟨evs ++ lr2.events, als :: lr2.errs, lr2.conf, lr2.exited⟩
    else
      let lr2 := targetLoop als rest r.2.1 opts ex
      ⟨r.2.2 ++ lr2.events, lr2.errs, lr2.conf, lr2.exited⟩

/-- Result of a whole run: the event trace and the process exit code
(0 for every `return` path, 1 for `sys.exit(1)`). -/
structure RunResult where
  events : List Event
  exitCode : Nat
deriving DecidableEq, Repr

/-- The fully resolved configuration of one job: the merged record
turned into `conf` (source lines 101-122) with destination defaulting
applied (source lines 124-126). -/
def jobConf (purge : Dict) (today : String) : Conf :=
  defaultDst (mkConf purge today)

/-- Target enumeration for one job (source lines 145-149): query mode
when a source-selection query is set, else the single static
(database, table) pair. -/
def jobTables (c : Conf) (queries : String → QueryResult) : List Table :=
  if c.src_query.truthy then get_tables_from_query (queries c.src_query.pyStr)
  else [{ database := c.src_db.pyStr, table := c.src_tbl.pyStr }]

/-- The per-alias loop of `main` (source lines 99-189): resolve `conf`,
default destinations, validate `SWAP_DROP` and the WHERE clause (either
failure `return`s, abandoning the whole run), enumerate targets, run the
target loop, and log the per-job success line exactly when the alias was
never appended to `error_on_alias`. -/
def jobLoop (purges : List Dict) (opts : Options) (today : String)
    (ex : Cmd → Int) (queries : String → QueryResult) : RunResult :=
  match purges with
  | [] => ⟨[], 0⟩
  | purge :: rest =>
    let c := jobConf purge today
    let als := c.prg_alias.pyStr
    if ¬ (c.swp_drp.pyEqInt 0 ∨ c.swp_drp.pyEqInt 1 ∨ c.swp_drp.pyEqInt 2) then
      ⟨[.validationError als], 0⟩
    else if ¬ c.prg_where.truthy ∧ c.swp_drp.pyEqInt 0 then
      ⟨[.validationError als], 0⟩
    else
      let lr := targetLoop als (jobTables c queries) c opts ex
      if lr.exited then ⟨lr.events, 1⟩
      else
        let jobEvs := lr.events ++
          (if als ∈ lr.errs then [] else [Event.successLine als]) ++
          [Event.finishLine als]
        let restRun := jobLoop rest opts today ex queries
        ⟨jobEvs ++ restRun.events, restRun.exitCode⟩

/-- Outcome of opening and parsing the job-list document, classified as
in `main` lines 77-93: unreadable/unparseable (caught, logged, and
`return`ed at line 83), a parsed document missing the `ALL` or
`PURGE_LIST` top-level section (a `KeyError` at line 88 or 90, caught by
the outer handler at line 190), or a well-formed document. -/
inductive CfgSource
| unreadable
| missingALL
| missingPURGELIST
| ok (all : Dict) (purge_list : List Dict)
deriving DecidableEq, Repr

/-- The alias filter of source lines 96-97: keep the purges whose
`ALIAS` equals the requested one.  (A merged record lacking `ALIAS`
would raise `KeyError` in the source; it is totalised here as a
non-match.) -/
def filterByAlias (a? : Option String) (purges : List Dict) : List Dict :=
  match a? with
  | none => purges
  | some a => purges.filter (fun b => pyGet b "ALIAS" .vNone = .vStr a)

/-- The whole run of `main` (source lines 57-191): load and resolve the
configuration, merge each override into the template, filter by alias,
and run the job loop.  A load failure or a missing top-level section
aborts before any job is processed. -/
def mainRun (src : CfgSource) (opts : Options) (today : String)
    (ex : Cmd → Int) (queries : String → QueryResult) : RunResult :=
  match src with
  | .unreadable => ⟨[.configReadError], 0⟩
  | .missingALL => ⟨[.unhandledError], 0⟩
  | .missingPURGELIST => ⟨[.unhandledError], 0⟩
  | .ok all purge_list =>
    let purge_data_list := purge_list.map (fun p => dictMerge all p)
    let purges := filterByAlias opts.alias? purge_data_list
    jobLoop purges opts today ex queries

/-- The dispatcher-step kinds recorded in a trace, in order. -/
def stepKinds (evs : List Event) : List StepKind :=
  evs.filterMap fun e =>
    match e with
    | .step _ _ _ k _ _ => some k
    | _ => none

/-- Reference trace following the specification's description of
continue-on-error: every target of the job is attempted in order,
regardless of earlier non-zero results, a failing target contributing
only its error log.  Returns the trace and the threaded configuration. -/
def allTargetsTrace (als : String) (tables : List Table) (c : Conf)
    (opts : Options) (ex : Cmd → Int) : List Event × Conf :=
  match tables with
  | [] => ([], c)
  | t :: rest =>
    let r := runOneTarget als t c opts ex
    let evs := r.2.2 ++ (if r.1 ≠ 0 then [Event.purgeFailed als] else [])
    let tail := allTargetsTrace als rest r.2.1 opts ex
    (evs ++ tail.1, tail.2)

/-- Example fixture: options with neither dry-run nor stop-on-error. -/
def exOptsPlain : Options := ⟨false, false, none⟩

/-- Example fixture: options with stop-on-error enabled. -/
def exOptsStop : Options := ⟨false, true, none⟩

/-- Example fixture: options with dry-run enabled. -/
def exOptsDry : Options := ⟨true, false, none⟩

/-- Example fixture: an execution oracle on which every command
succeeds. -/
def exExecOk : Cmd → Int := fun _ => 0

/-- Example fixture: an execution oracle on which every command fails
with status 1. -/
def exExecFail : Cmd → Int := fun _ => 1

/-- Example fixture: a query oracle whose connection always fails. -/
def exNoQuery : String → QueryResult := fun _ => .connError

/-- Example fixture: an ARCHIVE_ONLY job with a WHERE clause. -/
def exPurgeArchive : Dict :=
  [("ALIAS", .vStr "jobA"), ("SOURCE_DB", .vStr "db"),
   ("SOURCE_TABLE", .vStr "t"), ("WHERE", .vStr "id<100")]

/-- Example fixture: a SWAP_ARCHIVE_DROP job without a WHERE clause. -/
def exPurgeSwap2 : Dict :=
  [("ALIAS", .vStr "jobB"), ("SOURCE_DB", .vStr "db"),
   ("SOURCE_TABLE", .vStr "t"), ("SWAP_DROP", .vInt 2)]

/-- Example fixture: a job with an out-of-range SWAP_DROP selector. -/
def exPurgeBad : Dict :=
  [("ALIAS", .vStr "jobC"), ("SWAP_DROP", .vInt 5)]

/-- Example fixture: an ARCHIVE_ONLY job with no WHERE clause. -/
def exPurgeNoWhere : Dict :=
  [("ALIAS", .vStr "jobD"), ("SOURCE_DB", .vStr "db"),
   ("SOURCE_TABLE", .vStr "t")]

/-- Example fixture: the resolved configuration of `exPurgeSwap2`. -/
def exConfSwap2 : Conf := jobConf exPurgeSwap2 "20261012"

/-- Example fixture: a single static target. -/
def exTable : Table := ⟨"db", "t"⟩

/-- Example fixture: a query-mode job (dynamic target lookup). -/
def exPurgeQuery : Dict :=
  [("ALIAS", .vStr "jobQ"), ("SOURCE_QUERY", .vStr "SELECT 1"),
   ("WHERE", .vStr "1=1")]

lemma runOneTarget_events_isStep (als : String) (t : Table) (c : Conf)
    (opts : Options) (ex : Cmd → Int) :
    ∀ e ∈ (runOneTarget als t c opts ex).2.2, e.isStep = true := by
  intro e he
  unfold runOneTarget at he
  by_cases h0 : c.swp_drp.pyEqInt 0 = true
  · simp [h0] at he
    simp [he, Event.isStep]
  · by_cases h1 : c.swp_drp.pyEqInt 1 = true
    · simp [h0, h1] at he
      simp [he, Event.isStep]
    · by_cases h2 : c.swp_drp.pyEqInt 2 = true
      · by_cases hr1 :
          (swap_create_table t.database t.table (swappedName t c) c opts ex).1 = 0
        · by_cases hr2 :
            (pt_archive_runner t.database (swappedName t c) (confSwapped t c)
              opts ex).1 = 0
          · simp [h0, h1, h2, hr1, hr2] at he
            rcases he with h | h | h <;> simp [h, Event.isStep]
          · simp [h0, h1, h2, hr1, hr2] at he
            rcases he with h | h <;> simp [h, Event.isStep]
        · simp [h0, h1, h2, hr1] at he
          simp [he, Event.isStep]
      · simp [h0, h1, h2] at he

lemma targetLoop_events_shape (als : String) (opts : Options)
    (ex : Cmd → Int) :
    ∀ (tables : List Table) (c : Conf),
      ∀ e ∈ (targetLoop als tables c opts ex).events,
        e.isStep = true ∨ e = Event.purgeFailed als := by
  intro tables
  induction tables with
  | nil => intro c e he; simp [targetLoop] at he
  | cons t rest ih =>
    intro c e he
    by_cases hr : (runOneTarget als t c opts ex).1 = 0
    · simp [targetLoop, hr] at he
      rcases he with h | h
      · exact Or.inl (runOneTarget_events_isStep als t c opts ex e h)
      · exact ih _ e h
    · by_cases hs : opts.stop_on_error = true
      · simp [targetLoop, hr, hs] at he
        rcases he with h | h
        · exact Or.inl (runOneTarget_events_isStep als t c opts ex e h)
        · exact Or.inr h
      · simp [targetLoop, hr, hs] at he
        rcases he with h | h | h
        · exact Or.inl (runOneTarget_events_isStep als t c opts ex e h)
        · exact Or.inr h
        · exact ih _ e h

lemma isStep_purgeFailed_false (e : Event) (h : e.isStep = true) :
    e.isPurgeFailed = false := by
  cases e <;> simp [Event.isStep, Event.isPurgeFailed] at h ⊢

lemma isStep_validationError_false (e : Event) (h : e.isStep = true) :
    e.isValidationError = false := by
  cases e <;> simp [Event.isStep, Event.isValidationError] at h ⊢

lemma targetLoop_cons_ok (als : String) (t : Table) (rest : List Table)
    (c : Conf) (opts : Options) (ex : Cmd → Int)
    (hr : (runOneTarget als t c opts ex).1 = 0) :
    targetLoop als (t :: rest) c opts ex =
      ⟨(runOneTarget als t c opts ex).2.2 ++
        (targetLoop als rest (runOneTarget als t c opts ex).2.1 opts ex).events,
       (targetLoop als rest (runOneTarget als t c opts ex).2.1 opts ex).errs,
       (targetLoop als rest (runOneTarget als t c opts ex).2.1 opts ex).conf,
       (targetLoop als rest (runOneTarget als t c opts ex).2.1 opts ex).exited⟩ := by
  simp [targetLoop, hr]

lemma targetLoop_cons_fail_stop (als : String) (t : Table) (rest : List Table)
    (c : Conf) (opts : Options) (ex : Cmd → Int)
    (hr : ¬ (runOneTarget als t c opts ex).1 = 0)
    (hs : opts.stop_on_error = true) :
    targetLoop als (t :: rest) c opts ex =
      ⟨(runOneTarget als t c opts ex).2.2 ++ [Event.purgeFailed als], [als],
       (runOneTarget als t c opts ex).2.1, true⟩ := by
  simp [targetLoop, hr, hs]

lemma targetLoop_cons_fail_go (als : String) (t : Table) (rest : List Table)
    (c : Conf) (opts : Options) (ex : Cmd → Int)
    (hr : ¬ (runOneTarget als t c opts ex).1 = 0)
    (hs : opts.stop_on_error = false) :
    targetLoop als (t :: rest) c opts ex =
      ⟨(runOneTarget als t c opts ex).2.2 ++ Event.purgeFailed als ::
        (targetLoop als rest (runOneTarget als t c opts ex).2.1 opts ex).events,
       als :: (targetLoop als rest (runOneTarget als t c opts ex).2.1 opts ex).errs,
       (targetLoop als rest (runOneTarget als t c opts ex).2.1 opts ex).conf,
       (targetLoop als rest (runOneTarget als t c opts ex).2.1 opts ex).exited⟩ := by
  simp [targetLoop, hr, hs]

lemma jobLoop_cons_valid (purge : Dict) (rest : List Dict) (opts : Options)
    (today : String) (ex : Cmd → Int) (queries : String → QueryResult)
    (hc1 : ((jobConf purge today).swp_drp.pyEqInt 0 = true
          ∨ (jobConf purge today).swp_drp.pyEqInt 1 = true
          ∨ (jobConf purge today).swp_drp.pyEqInt 2 = true))
    (hc2 : ¬ (¬ (jobConf purge today).prg_where.truthy = true
           ∧ (jobConf purge today).swp_drp.pyEqInt 0 = true)) :
    jobLoop (purge :: rest) opts today ex queries =
      if (targetLoop (jobConf purge today).prg_alias.pyStr
            (jobTables (jobConf purge today) queries)
            (jobConf purge today) opts ex).exited then
        ⟨(targetLoop (jobConf purge today).prg_alias.pyStr
            (jobTables (jobConf purge today) queries)
            (jobConf purge today) opts ex).events, 1⟩
      else
        ⟨(targetLoop (jobConf purge today).prg_alias.pyStr
            (jobTables (jobConf purge today) queries)
            (jobConf purge today) opts ex).events ++
          (if (jobConf purge today).prg_alias.pyStr ∈
              (targetLoop (jobConf purge today).prg_alias.pyStr
                (jobTables (jobConf purge today) queries)
                (jobConf purge today) opts ex).errs then []
           else [Event.successLine ((jobConf purge today).prg_alias.pyStr)]) ++
          [Event.finishLine ((jobConf purge today).prg_alias.pyStr)] ++
          (jobLoop rest opts today ex queries).events,
         (jobLoop rest opts today ex queries).exitCode⟩ := by
  simp only [jobLoop]
  rw [if_neg (not_not_intro hc1), if_neg hc2]

lemma targetLoop_stop_shape (als : String) (opts : Options) (ex : Cmd → Int)
    (hs : opts.stop_on_error = true) :
    ∀ (tables : List Table) (c : Conf),
      ((targetLoop als tables c opts ex).exited = false →
        ∀ e ∈ (targetLoop als tables c opts ex).events, e.isPurgeFailed = false)
      ∧ ((targetLoop als tables c opts ex).exited = true →
        ∃ pre, (targetLoop als tables c opts ex).events =
          pre ++ [Event.purgeFailed als]) := by
  intro tables
  induction tables with
  | nil =>
    intro c
    refine ⟨?_, ?_⟩
    · intro _ e he
      simp [targetLoop] at he
    · intro hex
      simp [targetLoop] at hex
  | cons t rest ih =>
    intro c
    by_cases hr : (runOneTarget als t c opts ex).1 = 0
    · rw [targetLoop_cons_ok als t rest c opts ex hr]
      have ih' := ih (runOneTarget als t c opts ex).2.1
      refine ⟨?_, ?_⟩
      · intro hex e he
        rcases List.mem_append.mp he with h | h
        · exact isStep_purgeFailed_false e
            (runOneTarget_events_isStep als t c opts ex e h)
        · exact ih'.1 hex e h
      · intro hex
        obtain ⟨pre, hpre⟩ := ih'.2 hex
        exact ⟨(runOneTarget als t c opts ex).2.2 ++ pre, by
          rw [hpre, List.append_assoc]⟩
    · rw [targetLoop_cons_fail_stop als t rest c opts ex hr hs]
      refine ⟨?_, ?_⟩
      · intro hex
        simp at hex
      · intro _
        exact ⟨(runOneTarget als t c opts ex).2.2, rfl⟩

lemma targetLoop_nostop (als : String) (opts : Options) (ex : Cmd → Int)
    (hs : opts.stop_on_error = false) :
    ∀ (tables : List Table) (c : Conf),
      (targetLoop als tables c opts ex).exited = false
      ∧ (targetLoop als tables c opts ex).events =
          (allTargetsTrace als tables c opts ex).1
      ∧ (als ∈ (targetLoop als tables c opts ex).errs ↔
          ∃ e ∈ (targetLoop als tables c opts ex).events,
            e.isPurgeFailed = true) := by
  intro tables
  induction tables with
  | nil =>
    intro c
    refine ⟨rfl, rfl, ?_⟩
    simp [targetLoop]
  | cons t rest ih =>
    intro c
    have ih' := ih (runOneTarget als t c opts ex).2.1
    have hsteps : ∀ e ∈ (runOneTarget als t c opts ex).2.2,
        e.isPurgeFailed = false := fun e he =>
      isStep_purgeFailed_false e (runOneTarget_events_isStep als t c opts ex e he)
    by_cases hr : (runOneTarget als t c opts ex).1 = 0
    · rw [targetLoop_cons_ok als t rest c opts ex hr]
      refine ⟨ih'.1, ?_, ?_⟩
      · simp only [allTargetsTrace, hr]
        simp [ih'.2.1]
      · simp only []
        rw [ih'.2.2]
        constructor
        · rintro ⟨e, he, hpf⟩
          exact ⟨e, List.mem_append.mpr (Or.inr he), hpf⟩
        · rintro ⟨e, he, hpf⟩
          rcases List.mem_append.mp he with h | h
          · rw [hsteps e h] at hpf
            exact absurd hpf (by simp)
          · exact ⟨e, h, hpf⟩
    · rw [targetLoop_cons_fail_go als t rest c opts ex hr hs]
      refine ⟨ih'.1, ?_, ?_⟩
      · simp only [allTargetsTrace, hr]
        simp [ih'.2.1, hr]
      · constructor
        · intro _
          exact ⟨Event.purgeFailed als,
            List.mem_append.mpr (Or.inr (List.mem_cons_self _ _)), rfl⟩
        · intro _
          exact List.mem_cons_self _ _

lemma collectTables_length :
    ∀ (good : List (List String)), (∀ r ∈ good, 2 ≤ r.length) →
      (collectTables good).length = good.length := by
  intro good
  induction good with
  | nil => intro _; rfl
  | cons r rest ih =>
    intro hg
    have hr := hg r (List.mem_cons_self _ _)
    match r, hr with
    | d :: t :: rs, _ =>
      simp [collectTables, ih (fun r' hr' => hg r' (List.mem_cons_of_mem _ hr'))]

lemma collectTables_stops :
    ∀ (good : List (List String)) (bad : List String)
      (more : List (List String)),
      (∀ r ∈ good, 2 ≤ r.length) → bad.length < 2 →
      collectTables (good ++ bad :: more) = collectTables good := by
  intro good
  induction good with
  | nil =>
    intro bad more _ hb
    match bad, hb with
    | [], _ => rfl
    | [x], _ => rfl
  | cons r rest ih =>
    intro bad more hg hb
    have hr := hg r (List.mem_cons_self _ _)
    match r, hr with
    | d :: t :: rs, _ =>
      simp only [List.cons_append, collectTables]
      exact congrArg (List.cons _)
        (ih bad more (fun r' hr' => hg r' (List.mem_cons_of_mem _ hr')) hb)

/-- C1: for every SWAP_ARCHIVE_DROP target (strategy selector 2), the
dispatcher runs at most three steps in the order SWAP, ARCHIVE, DROP,
each later step gated on the previous step returning 0; before the
ARCHIVE step the destination-table field is rewritten to the suffixed
name and the archiver is run against that suffixed table; the first
non-zero status skips the remaining steps and is the target's result. -/
theorem swap_archive_drop_sequencing
    (als : String) (t : Table) (c : Conf) (opts : Options) (ex : Cmd → Int)
    (r1 r2 r3 : Int)
    (h : c.swp_drp = Val.vInt 2)
    (h1 : r1 = (swap_create_table t.database t.table (swappedName t c) c opts ex).1)
    (h2 : r2 = (pt_archive_runner t.database (swappedName t c) (confSwapped t c) opts ex).1)
    (h3 : r3 = (drop_table t.database (swappedName t c) (confSwapped t c) opts ex).1) :
    stepKinds (runOneTarget als t c opts ex).2.2 =
      (if r1 ≠ 0 then [StepKind.swap]
       else if r2 ≠ 0 then [StepKind.swap, StepKind.archive]
       else [StepKind.swap, StepKind.archive, StepKind.drop])
    ∧ (runOneTarget als t c opts ex).1 =
        (if r1 ≠ 0 then r1 else if r2 ≠ 0 then r2 else r3)
    ∧ (r1 = 0 →
        (runOneTarget als t c opts ex).2.1.dst_tbl = Val.vStr (swappedName t c))
    ∧ (r1 = 0 →
        (runOneTarget als t c opts ex).2.2[1]? =
          some (Event.step als t.database (swappedName t c) StepKind.archive r2
            (pt_archive_runner t.database (swappedName t c) (confSwapped t c)
              opts ex).2)) := by
  have e0 : c.swp_drp.pyEqInt 0 = false := by rw [h]; rfl
  have e1 : c.swp_drp.pyEqInt 1 = false := by rw [h]; rfl
  have e2 : c.swp_drp.pyEqInt 2 = true := by rw [h]; rfl
  subst h1 h2 h3
  by_cases hr1 :
      (swap_create_table t.database t.table (swappedName t c) c opts ex).1 = 0
  · by_cases hr2 :
        (pt_archive_runner t.database (swappedName t c) (confSwapped t c)
          opts ex).1 = 0
    · simp [runOneTarget, e0, e1, e2, hr1, hr2, stepKinds]
      rfl
    · simp [runOneTarget, e0, e1, e2, hr1, hr2, stepKinds]
      rfl
  · simp [runOneTarget, e0, e1, e2, hr1, stepKinds]

/-- Witness for C1: on a concrete SWAP_ARCHIVE_DROP job where every
command succeeds, all three steps run in order. -/
theorem swap_archive_drop_sequencing_witness :
    exConfSwap2.swp_drp = Val.vInt 2 ∧
    stepKinds (runOneTarget "jobB" exTable exConfSwap2 exOptsPlain exExecOk).2.2 =
      [StepKind.swap, StepKind.archive, StepKind.drop] := by
  refine ⟨by decide, ?_⟩
  rw [(swap_archive_drop_sequencing "jobB" exTable exConfSwap2 exOptsPlain
    exExecOk _ _ _ (by decide) rfl rfl rfl).1]
  decide

/-- C2: a job whose retirement-strategy selector is outside {0, 1, 2}
fails validation before any step runs, and the whole run is abandoned
at that point — the run's trace is the single validation-error log, so
no further aliases are processed and no external command is built. -/
theorem invalid_strategy_abandons_run
    (purge : Dict) (rest : List Dict) (opts : Options) (today : String)
    (ex : Cmd → Int) (queries : String → QueryResult)
    (h : ¬ ((jobConf purge today).swp_drp.pyEqInt 0 = true
          ∨ (jobConf purge today).swp_drp.pyEqInt 1 = true
          ∨ (jobConf purge today).swp_drp.pyEqInt 2 = true)) :
    jobLoop (purge :: rest) opts today ex queries =
      ⟨[Event.validationError (jobConf purge today).prg_alias.pyStr], 0⟩
    ∧ ∀ e ∈ (jobLoop (purge :: rest) opts today ex queries).events,
        e.isStep = false := by
  have hj : jobLoop (purge :: rest) opts today ex queries =
      ⟨[Event.validationError (jobConf purge today).prg_alias.pyStr], 0⟩ := by
    simp [jobLoop, h]
  refine ⟨hj, ?_⟩
  rw [hj]
  intro e he
  simp at he
  simp [he, Event.isStep]

/-- Witness for C2: a concrete job with SWAP_DROP = 5 abandons the run,
leaving only the validation-error log even though another alias was
queued behind it. -/
theorem invalid_strategy_abandons_run_witness :
    jobLoop [exPurgeBad, exPurgeArchive] exOptsPlain "20261012" exExecOk exNoQuery =
      ⟨[Event.validationError "jobC"], 0⟩ := by
  rw [(invalid_strategy_abandons_run exPurgeBad [exPurgeArchive] exOptsPlain
    "20261012" exExecOk exNoQuery (by decide)).1]
  decide

/-- C3: an ARCHIVE_ONLY job (selector 0) with an empty or absent WHERE
predicate fails validation before any external command is built, and
the failure aborts the remainder of the run, not just the offending
job: the run's trace is the single validation-error log. -/
theorem archive_only_missing_where_aborts
    (purge : Dict) (rest : List Dict) (opts : Options) (today : String)
    (ex : Cmd → Int) (queries : String → QueryResult)
    (h0 : (jobConf purge today).swp_drp.pyEqInt 0 = true)
    (hw : (jobConf purge today).prg_where = Val.vNone
        ∨ (jobConf purge today).prg_where = Val.vStr "") :
    jobLoop (purge :: rest) opts today ex queries =
      ⟨[Event.validationError (jobConf purge today).prg_alias.pyStr], 0⟩
    ∧ ∀ e ∈ (jobLoop (purge :: rest) opts today ex queries).events,
        e.isStep = false := by
  have ht : (jobConf purge today).prg_where.truthy = false := by
    rcases hw with h | h <;> rw [h] <;> rfl
  have hj : jobLoop (purge :: rest) opts today ex queries =
      ⟨[Event.validationError (jobConf purge today).prg_alias.pyStr], 0⟩ := by
    simp [jobLoop, h0, ht]
  refine ⟨hj, ?_⟩
  rw [hj]
  intro e he
  simp at he
  simp [he, Event.isStep]

/-- Witness for C3: a concrete ARCHIVE_ONLY job without a WHERE clause
aborts the run, even with another alias queued behind it. -/
theorem archive_only_missing_where_aborts_witness :
    jobLoop [exPurgeNoWhere, exPurgeArchive] exOptsPlain "20261012" exExecOk
      exNoQuery = ⟨[Event.validationError "jobD"], 0⟩ := by
  rw [(archive_only_missing_where_aborts exPurgeNoWhere [exPurgeArchive]
    exOptsPlain "20261012" exExecOk exNoQuery (by decide) (Or.inl (by decide))).1]
  decide

/-- C4: the built archiver command decomposes into the fixed arguments,
exactly one output-mode block, the dry-run directive when simulating,
and the extra arguments; the mode block is one of three pairwise
distinct forms, chosen by precedence: delete-after-archive when the
delete flag is set, else file-dump when a destination file is set, else
insert into the fully resolved destination DSN; and the simulation flag
puts `--dry-run` into the command. -/
theorem pt_archiver_output_mode
    (src_db src_tbl : String) (c : Conf) (opts : Options) :
    pt_archiver_cmd src_db src_tbl c opts =
      ptCommonArgs src_db src_tbl c ++ ptModeArgs c ++
        (if opts.dry_run then ["--dry-run"] else []) ++ ptExtraArgs c
    ∧ (ptModeArgs c = ptDeleteMode ∨ ptModeArgs c = ptFileMode c
        ∨ ptModeArgs c = ptDestMode c)
    ∧ ptDeleteMode ≠ ptFileMode c
    ∧ ptDeleteMode ≠ ptDestMode c
    ∧ ptFileMode c ≠ ptDestMode c
    ∧ (c.prg_purge.truthy = true → ptModeArgs c = ptDeleteMode)
    ∧ (c.prg_purge.truthy = false → c.dst_file.truthy = true →
        ptModeArgs c = ptFileMode c)
    ∧ (c.prg_purge.truthy = false → c.dst_file.truthy = false →
        ptModeArgs c = ptDestMode c)
    ∧ (opts.dry_run = true →
        "--dry-run" ∈ pt_archiver_cmd src_db src_tbl c opts) := by
  refine ⟨rfl, ?_, ?_, ?_, ?_, ?_, ?_, ?_, ?_⟩
  · by_cases h1 : c.prg_purge.truthy = true
    · exact Or.inl (by simp [ptModeArgs, h1])
    · by_cases h2 : c.dst_file.truthy = true
      · exact Or.inr (Or.inl (by simp [ptModeArgs, h1, h2]))
      · exact Or.inr (Or.inr (by simp [ptModeArgs, h1, h2]))
  · intro hcon
    simp [ptDeleteMode, ptFileMode] at hcon
  · intro hcon
    simp [ptDeleteMode, ptDestMode, List.cons.injEq] at hcon
  · intro hcon
    simp [ptFileMode, ptDestMode] at hcon
  · intro h1
    simp [ptModeArgs, h1]
  · intro h1 h2
    simp [ptModeArgs, h1, h2]
  · intro h1 h2
    simp [ptModeArgs, h1, h2]
  · intro hd
    simp [pt_archiver_cmd, hd]

/-- Witness for C4: on a concrete job with neither the delete flag nor
a destination file, the insert mode is chosen, and with dry-run set the
command carries `--dry-run`. -/
theorem pt_archiver_output_mode_witness :
    "--dry-run" ∈
      pt_archiver_cmd "db" "t" (jobConf exPurgeArchive "20261012") exOptsDry
    ∧ ptModeArgs (jobConf exPurgeArchive "20261012") =
        ptDestMode (jobConf exPurgeArchive "20261012") := by
  have h := pt_archiver_output_mode "db" "t" (jobConf exPurgeArchive "20261012")
    exOptsDry
  exact ⟨h.2.2.2.2.2.2.2.2 rfl, h.2.2.2.2.2.2.2.1 (by decide) (by decide)⟩

/-- C7: after the template-and-override merge, each destination field
absent from the merged record resolves to the corresponding source
field's final value; defaulting is applied once, on the resolved
record, leaving source fields untouched, and every destination field is
either its truthy merged value or the source value — never partially
defaulted. -/
theorem destination_defaulting (all ov : Dict) (today : String) :
    ∀ m c0 c, m = dictMerge all ov → c0 = mkConf m today → c = defaultDst c0 →
    (c.src_host = c0.src_host ∧ c.src_port = c0.src_port ∧
      c.src_db = c0.src_db ∧ c.src_tbl = c0.src_tbl)
    ∧ (dget m "DEST_HOST" = none → c.dst_host = c.src_host)
    ∧ (dget m "DEST_PORT" = none → c.dst_port = c.src_port)
    ∧ (dget m "DEST_DB" = none → c.dst_db = c.src_db)
    ∧ (dget m "DEST_TABLE" = none → c.dst_tbl = c.src_tbl)
    ∧ (c.dst_host = if c0.dst_host.truthy then c0.dst_host else c0.src_host)
    ∧ (c.dst_port = if c0.dst_port.truthy then c0.dst_port else c0.src_port)
    ∧ (c.dst_db = if c0.dst_db.truthy then c0.dst_db else c0.src_db)
    ∧ (c.dst_tbl = if c0.dst_tbl.truthy then c0.dst_tbl else c0.src_tbl) := by
  intro m c0 c hm hc0 hc
  subst hm hc0 hc
  refine ⟨⟨rfl, rfl, rfl, rfl⟩, ?_, ?_, ?_, ?_, rfl, rfl, rfl, rfl⟩ <;>
    intro hd <;> simp [defaultDst, mkConf, pyGet, hd, Val.truthy]

/-- Witness for C7: on a concrete merged record with every DEST field
absent, the destination host resolves to the source host's final
value. -/
theorem destination_defaulting_witness :
    (defaultDst (mkConf (dictMerge [("SOURCE_HOST", Val.vStr "h1")]
      exPurgeArchive) "20261012")).dst_host = Val.vStr "h1" := by
  have h := destination_defaulting [("SOURCE_HOST", Val.vStr "h1")]
    exPurgeArchive "20261012" _ _ _ rfl rfl rfl
  rw [h.2.1 (by decide)]
  decide

/-- C9: when the job-list document is unreadable/unparseable or lacks a
required top-level section, the run aborts before any job is processed:
the trace is the single configuration-error log, no step runs, and the
process exits 0 without reaching the job loop. -/
theorem config_error_aborts
    (src : CfgSource) (opts : Options) (today : String) (ex : Cmd → Int)
    (queries : String → QueryResult)
    (h : src = .unreadable ∨ src = .missingALL ∨ src = .missingPURGELIST) :
    ((mainRun src opts today ex queries).events = [Event.configReadError]
      ∨ (mainRun src opts today ex queries).events = [Event.unhandledError])
    ∧ (mainRun src opts today ex queries).exitCode = 0
    ∧ ∀ e ∈ (mainRun src opts today ex queries).events, e.isStep = false := by
  rcases h with h | h | h <;> subst h
  · exact ⟨Or.inl rfl, rfl, by
      intro e he
      simp [mainRun] at he
      simp [he, Event.isStep]⟩
  · exact ⟨Or.inr rfl, rfl, by
      intro e he
      simp [mainRun] at he
      simp [he, Event.isStep]⟩
  · exact ⟨Or.inr rfl, rfl, by
      intro e he
      simp [mainRun] at he
      simp [he, Event.isStep]⟩

/-- Witness for C9: a concrete unreadable document exits 0 without
processing any job. -/
theorem config_error_aborts_witness :
    (mainRun .unreadable exOptsPlain "20261012" exExecOk exNoQuery).exitCode
      = 0 :=
  (config_error_aborts CfgSource.unreadable exOptsPlain "20261012" exExecOk
    exNoQuery (Or.inl rfl)).2.1

/-- C5: with stop-on-error enabled, if any target's result is non-zero
the process terminates immediately with exit status 1 and the failure
log is the final event of the whole run — no step of any later target
or later job ever runs; conversely a run that exits 0 had no failing
target. -/
theorem stop_on_error_halts (purges : List Dict) (opts : Options)
    (today : String) (ex : Cmd → Int) (queries : String → QueryResult)
    (hs : opts.stop_on_error = true) :
    ((jobLoop purges opts today ex queries).exitCode = 0 →
      ∀ e ∈ (jobLoop purges opts today ex queries).events,
        e.isPurgeFailed = false)
    ∧ ((jobLoop purges opts today ex queries).exitCode ≠ 0 →
      (jobLoop purges opts today ex queries).exitCode = 1
      ∧ ∃ pre als, (jobLoop purges opts today ex queries).events =
          pre ++ [Event.purgeFailed als]) := by
  induction purges with
  | nil =>
    refine ⟨?_, ?_⟩
    · intro _ e he
      simp [jobLoop] at he
    · intro h
      exact absurd rfl h
  | cons purge rest ih =>
    by_cases hv1 : ¬ ((jobConf purge today).swp_drp.pyEqInt 0 = true
        ∨ (jobConf purge today).swp_drp.pyEqInt 1 = true
        ∨ (jobConf purge today).swp_drp.pyEqInt 2 = true)
    · have hj : jobLoop (purge :: rest) opts today ex queries =
          ⟨[Event.validationError (jobConf purge today).prg_alias.pyStr], 0⟩ := by
        simp [jobLoop, hv1]
      rw [hj]
      refine ⟨?_, ?_⟩
      · intro _ e he
        simp at he
        simp [he, Event.isPurgeFailed]
      · intro h0
        exact absurd rfl h0
    · by_cases hv2 : (¬ (jobConf purge today).prg_where.truthy = true
          ∧ (jobConf purge today).swp_drp.pyEqInt 0 = true)
      · have hj : jobLoop (purge :: rest) opts today ex queries =
            ⟨[Event.validationError (jobConf purge today).prg_alias.pyStr], 0⟩ := by
          simp only [jobLoop]
          rw [if_neg hv1, if_pos hv2]
        rw [hj]
        refine ⟨?_, ?_⟩
        · intro _ e he
          simp at he
          simp [he, Event.isPurgeFailed]
        · intro h0
          exact absurd rfl h0
      · rw [jobLoop_cons_valid purge rest opts today ex queries
          (not_not.mp hv1) hv2]
        by_cases hex : (targetLoop (jobConf purge today).prg_alias.pyStr
            (jobTables (jobConf purge today) queries)
            (jobConf purge today) opts ex).exited = true
        · rw [if_pos hex]
          refine ⟨?_, ?_⟩
          · intro h0
            simp at h0
          · intro _
            obtain ⟨pre, hpre⟩ := (targetLoop_stop_shape
              (jobConf purge today).prg_alias.pyStr opts ex hs
              (jobTables (jobConf purge today) queries)
              (jobConf purge today)).2 hex
            exact ⟨rfl, pre, (jobConf purge today).prg_alias.pyStr, hpre⟩
        · rw [if_neg hex]
          have hex' : (targetLoop (jobConf purge today).prg_alias.pyStr
              (jobTables (jobConf purge today) queries)
              (jobConf purge today) opts ex).exited = false := by
            simpa using hex
          refine ⟨?_, ?_⟩
          · intro h0 e he
            simp only [List.mem_append] at he
            rcases he with ((h | h) | h) | h
            · exact (targetLoop_stop_shape
                (jobConf purge today).prg_alias.pyStr opts ex hs
                (jobTables (jobConf purge today) queries)
                (jobConf purge today)).1 hex' e h
            · by_cases hmem : (jobConf purge today).prg_alias.pyStr ∈
                  (targetLoop (jobConf purge today).prg_alias.pyStr
                    (jobTables (jobConf purge today) queries)
                    (jobConf purge today) opts ex).errs
              · simp [hmem] at h
              · simp [hmem] at h
                simp [h, Event.isPurgeFailed]
            · simp only [List.mem_singleton] at h
              simp [h, Event.isPurgeFailed]
            · exact (ih.1 h0) e h
          · intro h0
            obtain ⟨hone, pre, als2, hpre⟩ := ih.2 h0
            refine ⟨hone, ?_⟩
            refine ⟨((targetLoop (jobConf purge today).prg_alias.pyStr
                (jobTables (jobConf purge today) queries)
                (jobConf purge today) opts ex).events ++
              (if (jobConf purge today).prg_alias.pyStr ∈
                  (targetLoop (jobConf purge today).prg_alias.pyStr
                    (jobTables (jobConf purge today) queries)
                    (jobConf purge today) opts ex).errs then []
               else [Event.successLine ((jobConf purge today).prg_alias.pyStr)]) ++
              [Event.finishLine ((jobConf purge today).prg_alias.pyStr)] ++ pre),
              als2, ?_⟩
            rw [hpre]
            simp [List.append_assoc]

/-- C6: without stop-on-error, a failing target stops nothing: the
target loop never exits early and its trace is exactly the
all-targets reference trace in which every target is attempted;
subsequent jobs still run, and the per-job success line is logged
precisely when no target of the job returned a non-zero result. -/
theorem continue_on_error
    (purge : Dict) (rest : List Dict) (opts : Options) (today : String)
    (ex : Cmd → Int) (queries : String → QueryResult)
    (als : String) (c : Conf) (tables : List Table)
    (hs : opts.stop_on_error = false)
    (hcnf : c = jobConf purge today)
    (hals : als = c.prg_alias.pyStr)
    (htab : tables = jobTables c queries)
    (hc1 : (c.swp_drp.pyEqInt 0 = true ∨ c.swp_drp.pyEqInt 1 = true
          ∨ c.swp_drp.pyEqInt 2 = true))
    (hc2 : ¬ (¬ c.prg_where.truthy = true ∧ c.swp_drp.pyEqInt 0 = true)) :
    (targetLoop als tables c opts ex).exited = false
    ∧ (targetLoop als tables c opts ex).events =
        (allTargetsTrace als tables c opts ex).1
    ∧ jobLoop (purge :: rest) opts today ex queries =
        ⟨(targetLoop als tables c opts ex).events ++
          (if als ∈ (targetLoop als tables c opts ex).errs then []
           else [Event.successLine als]) ++ [Event.finishLine als] ++
          (jobLoop rest opts today ex queries).events,
         (jobLoop rest opts today ex queries).exitCode⟩
    ∧ (Event.successLine als ∈
          (targetLoop als tables c opts ex).events ++
            (if als ∈ (targetLoop als tables c opts ex).errs then []
             else [Event.successLine als]) ++ [Event.finishLine als]
        ↔ ∀ e ∈ (targetLoop als tables c opts ex).events,
            e.isPurgeFailed = false) := by
  subst hcnf
  subst hals
  subst htab
  have hT := targetLoop_nostop (jobConf purge today).prg_alias.pyStr opts ex hs
    (jobTables (jobConf purge today) queries) (jobConf purge today)
  refine ⟨hT.1, hT.2.1, ?_, ?_⟩
  · rw [jobLoop_cons_valid purge rest opts today ex queries hc1 hc2,
      if_neg (by simp [hT.1])]
  · constructor
    · intro hmem
      by_cases herr : (jobConf purge today).prg_alias.pyStr ∈
          (targetLoop (jobConf purge today).prg_alias.pyStr
            (jobTables (jobConf purge today) queries)
            (jobConf purge today) opts ex).errs
      · exfalso
        simp [herr] at hmem
        rcases targetLoop_events_shape (jobConf purge today).prg_alias.pyStr
          opts ex (jobTables (jobConf purge today) queries)
          (jobConf purge today) _ hmem with hstep | hpf
        · simp [Event.isStep] at hstep
        · simp at hpf
      · intro e he
        by_contra hne
        have hfail : ∃ e ∈ (targetLoop (jobConf purge today).prg_alias.pyStr
            (jobTables (jobConf purge today) queries)
            (jobConf purge today) opts ex).events, e.isPurgeFailed = true :=
          ⟨e, he, by
            cases hb : e.isPurgeFailed
            · exact absurd hb hne
            · rfl⟩
        exact herr (hT.2.2.mpr hfail)
    · intro hall
      have herr : ¬ (jobConf purge today).prg_alias.pyStr ∈
          (targetLoop (jobConf purge today).prg_alias.pyStr
            (jobTables (jobConf purge today) queries)
            (jobConf purge today) opts ex).errs := by
        intro h
        obtain ⟨e, he, hpf⟩ := hT.2.2.mp h
        rw [hall e he] at hpf
        exact absurd hpf (by simp)
      simp [herr]

/-- C8: in query mode, a connection or query failure yields the empty
target list, so the job runs no step, is reported successful rather
than failed, and the run continues with the remaining jobs; a result
row with fewer than two columns truncates enumeration to exactly the
targets collected from the well-formed rows before it. -/
theorem query_failure_handling
    (purge : Dict) (rest : List Dict) (opts : Options) (today : String)
    (ex : Cmd → Int) (queries : String → QueryResult)
    (hc1 : ((jobConf purge today).swp_drp.pyEqInt 0 = true
          ∨ (jobConf purge today).swp_drp.pyEqInt 1 = true
          ∨ (jobConf purge today).swp_drp.pyEqInt 2 = true))
    (hc2 : ¬ (¬ (jobConf purge today).prg_where.truthy = true
           ∧ (jobConf purge today).swp_drp.pyEqInt 0 = true))
    (hq : (jobConf purge today).src_query.truthy = true)
    (hconn : queries ((jobConf purge today).src_query.pyStr) = .connError) :
    jobLoop (purge :: rest) opts today ex queries =
      ⟨Event.successLine ((jobConf purge today).prg_alias.pyStr) ::
        Event.finishLine ((jobConf purge today).prg_alias.pyStr) ::
        (jobLoop rest opts today ex queries).events,
       (jobLoop rest opts today ex queries).exitCode⟩
    ∧ (∀ (good : List (List String)) (bad : List String)
        (more : List (List String)),
        (∀ r ∈ good, 2 ≤ r.length) → bad.length < 2 →
        get_tables_from_query (.rows (good ++ bad :: more)) = collectTables good
        ∧ (collectTables good).length = good.length) := by
  constructor
  · have htab : jobTables (jobConf purge today) queries = [] := by
      simp [jobTables, hq, hconn, get_tables_from_query]
    rw [jobLoop_cons_valid purge rest opts today ex queries hc1 hc2, htab]
    simp [targetLoop]
  · intro good bad more hg hb
    exact ⟨collectTables_stops good bad more hg hb, collectTables_length good hg⟩

/-- C10: a job with strategy selector 1 or 2 and an absent WHERE
predicate passes validation (the mandatory-WHERE check applies only to
selector 0), and for selector 2 the ARCHIVE step's archiver command
contains the literal argument `--where=None`. -/
theorem where_optional_for_swap_strategies
    (purge : Dict) (opts : Options) (today : String) (ex : Cmd → Int)
    (queries : String → QueryResult) (c : Conf)
    (hcnf : c = jobConf purge today)
    (hw : c.prg_where = Val.vNone)
    (h12 : c.swp_drp = Val.vInt 1 ∨ c.swp_drp = Val.vInt 2) :
    (∀ e ∈ (jobLoop [purge] opts today ex queries).events,
      e.isValidationError = false)
    ∧ (c.swp_drp = Val.vInt 2 → ∀ t : Table,
        "--where=None" ∈ pt_archiver_cmd t.database (swappedName t c)
          (confSwapped t c) opts
        ∧ (pt_archive_runner t.database (swappedName t c) (confSwapped t c)
            opts ex).2 =
          [Cmd.simple (pt_archiver_cmd t.database (swappedName t c)
            (confSwapped t c) opts)]) := by
  subst hcnf
  have hc1 : ((jobConf purge today).swp_drp.pyEqInt 0 = true
      ∨ (jobConf purge today).swp_drp.pyEqInt 1 = true
      ∨ (jobConf purge today).swp_drp.pyEqInt 2 = true) := by
    rcases h12 with h | h
    · exact Or.inr (Or.inl (by rw [h]; rfl))
    · exact Or.inr (Or.inr (by rw [h]; rfl))
  have hc2 : ¬ (¬ (jobConf purge today).prg_where.truthy = true
      ∧ (jobConf purge today).swp_drp.pyEqInt 0 = true) := by
    rintro ⟨-, h0⟩
    rcases h12 with h | h <;> rw [h] at h0 <;> simp [Val.pyEqInt] at h0
  constructor
  · rw [jobLoop_cons_valid purge [] opts today ex queries hc1 hc2]
    by_cases hex : (targetLoop (jobConf purge today).prg_alias.pyStr
        (jobTables (jobConf purge today) queries)
        (jobConf purge today) opts ex).exited = true
    · rw [if_pos hex]
      intro e he
      rcases targetLoop_events_shape (jobConf purge today).prg_alias.pyStr
        opts ex (jobTables (jobConf purge today) queries)
        (jobConf purge today) e he with hstep | hpf
      · exact isStep_validationError_false e hstep
      · simp [hpf, Event.isValidationError]
    · rw [if_neg hex]
      intro e he
      simp only [List.mem_append] at he
      rcases he with ((h | h) | h) | h
      · rcases targetLoop_events_shape (jobConf purge today).prg_alias.pyStr
          opts ex (jobTables (jobConf purge today) queries)
          (jobConf purge today) e h with hstep | hpf
        · exact isStep_validationError_false e hstep
        · simp [hpf, Event.isValidationError]
      · by_cases hmem : (jobConf purge today).prg_alias.pyStr ∈
            (targetLoop (jobConf purge today).prg_alias.pyStr
              (jobTables (jobConf purge today) queries)
              (jobConf purge today) opts ex).errs
        · simp [hmem] at h
        · simp [hmem] at h
          simp [h, Event.isValidationError]
      · simp only [List.mem_singleton] at h
        simp [h, Event.isValidationError]
      · simp [jobLoop] at h
  · intro h2 t
    have hw2 : (confSwapped t (jobConf purge today)).prg_where = Val.vNone := by
      simp [confSwapped, hw]
    constructor
    · have hvn : "--where=" ++ Val.pyStr Val.vNone = "--where=None" := by decide
      simp only [pt_archiver_cmd, ptCommonArgs, hw2, hvn]
      simp
    · rfl

/-- Witness for C5: a concrete stop-on-error run whose only target
fails exits with status 1. -/
theorem stop_on_error_halts_witness :
    (jobLoop [exPurgeArchive] exOptsStop "20261012" exExecFail
      exNoQuery).exitCode = 1 := by
  have h := stop_on_error_halts [exPurgeArchive] exOptsStop "20261012"
    exExecFail exNoQuery rfl
  exact (h.2 (by decide)).1

/-- Witness for C6: a concrete continue-on-error run with a failing
target does not exit the target loop early. -/
theorem continue_on_error_witness :
    (targetLoop "jobA" (jobTables (jobConf exPurgeArchive "20261012") exNoQuery)
      (jobConf exPurgeArchive "20261012") exOptsPlain exExecFail).exited
      = false :=
  (continue_on_error exPurgeArchive [exPurgeSwap2] exOptsPlain "20261012"
    exExecFail exNoQuery "jobA" (jobConf exPurgeArchive "20261012")
    (jobTables (jobConf exPurgeArchive "20261012") exNoQuery)
    rfl rfl (by decide) rfl (by decide) (by decide)).1

/-- Witness for C8: a concrete query-mode job whose lookup connection
fails is logged successful with no steps, and a malformed second row
keeps exactly the first row's target. -/
theorem query_failure_handling_witness :
    jobLoop [exPurgeQuery] exOptsPlain "20261012" exExecOk exNoQuery =
      ⟨[Event.successLine "jobQ", Event.finishLine "jobQ"], 0⟩
    ∧ get_tables_from_query
        (.rows [["a", "b"], ["x"], ["c", "d"]]) = [⟨"a", "b"⟩] := by
  have h := query_failure_handling exPurgeQuery [] exOptsPlain "20261012"
    exExecOk exNoQuery (by decide) (by decide) (by decide) rfl
  constructor
  · rw [h.1]
    decide
  · have h2 := h.2 [["a", "b"]] ["x"] [["c", "d"]] (by decide) (by decide)
    simp only [List.cons_append, List.nil_append] at h2
    rw [h2.1]
    decide

/-- Witness for C10: the concrete SWAP_ARCHIVE_DROP job without WHERE
produces an archiver command containing `--where=None`. -/
theorem where_optional_for_swap_strategies_witness :
    "--where=None" ∈ pt_archiver_cmd "db" (swappedName exTable exConfSwap2)
      (confSwapped exTable exConfSwap2) exOptsPlain := by
  have h := where_optional_for_swap_strategies exPurgeSwap2 exOptsPlain
    "20261012" exExecOk exNoQuery exConfSwap2 rfl (by decide)
    (Or.inr (by decide))
  exact (h.2 (by decide) exTable).1

end PurgeTables
